import Mathlib

/- Shallow embedding of src/src/utils/fraudDetection.ts.

   Numbers are modelled as exact rationals (ℚ); decimal literals such as
   0.15 denote the exact rational 3/20.  The ambient reads the source
   performs — new Date().getHours(), new Date().getDay(), and the two
   Math.random() draws — are made explicit as an Env record, the
   injectable clock/random seam the specification mandates.  JavaScript
   timestamps are milliseconds since the epoch, modelled as ℤ; an absent
   optional field is none.  JavaScript truthiness tests on numbers
   (if (x) ...) are false at 0, which the embedding reproduces. -/

/-- Transaction record (fraudDetection.ts lines 2-14).  The created_at
field is the parsed timestamp in milliseconds since the epoch. -/
structure Transaction where
  id : Option String
  amount : ℚ
  channel : String
  beneficiary_name : String
  beneficiary_account : String
  beneficiary_phone : String
  beneficiary_ifsc : String
  sender_account : String
  sender_latitude : Option ℚ
  sender_longitude : Option ℚ
  created_at : Option ℤ
deriving DecidableEq, Repr

/-- FraudAnalysis record (fraudDetection.ts lines 16-22). -/
structure FraudAnalysis where
  risk_score : ℚ
  anomaly_score : ℚ
  risk_level : String
  fraud_probability : ℚ
  requires_review : Bool
deriving DecidableEq, Repr

/-- Ambient values read inside advancedFraudDetection: the wall-clock hour
(line 44), the day of week (line 49), and the two Math.random() draws
(lines 105-106).  Math.random() returns a value in [0, 1). -/
structure Env where
  hour : ℕ
  dayOfWeek : ℕ
  randomRisk : ℚ
  randomAnomaly : ℚ
deriving DecidableEq, Repr

/-- Amount-tier risk weights (lines 30-33). -/
def amountRisk (amount : ℚ) : ℚ :=
  if amount > 1000000 then 0.4
  else if amount > 500000 then 0.3
  else if amount > 100000 then 0.2
  else if amount > 50000 then 0.1
  else 0

/-- Channel base weight, defaulting to 0.25 for channels outside the table
(lines 36-41). -/
def channelRisk (channel : String) : ℚ :=
  if channel = "RTGS" then 0.1
  else if channel = "NEFT" then 0.15
  else if channel = "UPI" then 0.2
  else 0.25

/-- Time-of-day contribution (lines 45-46): 0.2 when hour < 6 or
hour > 22, plus a further 0.1 when hour ≥ 22 or hour ≤ 2. -/
def timeRisk (hour : ℕ) : ℚ :=
  (if hour < 6 ∨ hour > 22 then 0.2 else 0) +
  (if hour ≥ 22 ∨ hour ≤ 2 then 0.1 else 0)

/-- Weekend contribution (line 50). -/
def weekendRisk (dayOfWeek : ℕ) : ℚ :=
  if dayOfWeek = 0 ∨ dayOfWeek = 6 then 0.1 else 0

/-- Test of the anchored regex [A-Z\s]+ of line 54: nonempty, every
character an uppercase letter or whitespace. -/
def matchesUpperSpace (s : String) : Bool :=
  !s.isEmpty && s.data.all fun c => (decide ('A' ≤ c) && decide (c ≤ 'Z')) || c.isWhitespace

/-- Beneficiary-name anomaly contributions (lines 53-54). -/
def nameAnomaly (name : String) : ℚ :=
  (if name.length < 3 then 0.3 else 0) +
  (if matchesUpperSpace name then -0.1 else 0)

/-- Test of the regex of line 57: one character repeated at least nine
times (head plus 8 or more copies). -/
def isRepeatedChar (s : String) : Bool :=
  match s.data with
  | [] => false
  | c :: rest => decide (rest.length ≥ 8) && rest.all (· == c)

/-- Repeated-digit account anomaly (line 57). -/
def accountAnomaly (account : String) : ℚ :=
  if isRepeatedChar account then 0.4 else 0

/-- Self-transfer risk (line 58). -/
def selfTransferRisk (tx : Transaction) : ℚ :=
  if tx.sender_account = tx.beneficiary_account then 0.8 else 0

/-- Routing-code denylist (lines 61-63): the first four characters against
TEST / FAKE / DEMO. -/
def ifscRisk (ifsc : String) : ℚ :=
  if ifsc.take 4 = "TEST" ∨ ifsc.take 4 = "FAKE" ∨ ifsc.take 4 = "DEMO" then 0.5 else 0

/-- Test of the regex ^[6-9]\d{9}$ of line 66. -/
def matchesPhone (s : String) : Bool :=
  match s.data with
  | [] => false
  | c :: rest =>
    decide ('6' ≤ c) && decide (c ≤ '9') && decide (rest.length = 9) && rest.all (·.isDigit)

/-- Phone-shape anomaly (line 66): added when the pattern does NOT match. -/
def phoneAnomaly (phone : String) : ℚ :=
  if matchesPhone phone then 0 else 0.3

/-- JavaScript a % m === 0 for a positive literal m: a is an integer
multiple of m, i.e. a / m has denominator 1. -/
def isMultiple (a m : ℚ) : Bool := (a / m).den == 1

/-- Round-amount anomaly contributions (lines 69-70). -/
def roundAmountAnomaly (amount : ℚ) : ℚ :=
  (if isMultiple amount 10000 ∧ amount > 100000 then 0.2 else 0) +
  (if isMultiple amount 100000 ∧ amount > 500000 then 0.3 else 0)

/-- Location-based contributions (lines 72-90), returned as the pair
(risk contribution, anomaly contribution).  The JavaScript guard
(transaction.sender_latitude && transaction.sender_longitude) is a
truthiness test: it takes the else branch not only when a coordinate is
absent but also when it is 0.  A coordinate is an exact integer
(lat % 1 === 0) exactly when its denominator is 1. -/
def locationContrib (tx : Transaction) : ℚ × ℚ :=
  match tx.sender_latitude, tx.sender_longitude with
  | some lat, some lng =>
    if lat ≠ 0 ∧ lng ≠ 0 then
      ((if lat < 6 ∨ lat > 37 ∨ lng < 68 ∨ lng > 97 then 0.3 else 0),
       (if lat.den = 1 ∧ lng.den = 1 then 0.2 else 0))
    else (0.1, 0)
  | _, _ => (0.1, 0)

/-- Cross-channel consistency risk (lines 96-98). -/
def crossChannelRisk (channel : String) (amount : ℚ) : ℚ :=
  if channel = "UPI" ∧ amount > 50000 then 0.2 else 0

/-- Cross-channel consistency anomaly (lines 100-102). -/
def crossChannelAnomaly (channel : String) (amount : ℚ) : ℚ :=
  if channel = "RTGS" ∧ amount < 300000 then 0.1 else 0

/-- Jitter term of lines 105-106: (Math.random() − 0.5) * 0.1. -/
def jitter (r : ℚ) : ℚ := (r - 0.5) * 0.1

/-- Sum of every contribution to riskScore before clamping
(lines 25-106, in source order). -/
def rawRiskScore (env : Env) (tx : Transaction) : ℚ :=
  amountRisk tx.amount + channelRisk tx.channel + timeRisk env.hour +
    weekendRisk env.dayOfWeek + selfTransferRisk tx + ifscRisk tx.beneficiary_ifsc +
    (locationContrib tx).1 + crossChannelRisk tx.channel tx.amount +
    jitter env.randomRisk

/-- Sum of every contribution to anomalyScore before clamping
(lines 25-106, in source order). -/
def rawAnomalyScore (env : Env) (tx : Transaction) : ℚ :=
  nameAnomaly tx.beneficiary_name + accountAnomaly tx.beneficiary_account +
    phoneAnomaly tx.beneficiary_phone + roundAmountAnomaly tx.amount +
    (locationContrib tx).2 + crossChannelAnomaly tx.channel tx.amount +
    jitter env.randomAnomaly

/-- Math.max(0, Math.min(1, x)) (lines 109-110). -/
def clamp01 (x : ℚ) : ℚ := max 0 (min 1 x)

/-- The clamped riskScore used for classification (line 109). -/
def riskScoreClamped (env : Env) (tx : Transaction) : ℚ :=
  clamp01 (rawRiskScore env tx)

/-- The clamped anomalyScore used for classification (line 110). -/
def anomalyScoreClamped (env : Env) (tx : Transaction) : ℚ :=
  clamp01 (rawAnomalyScore env tx)

/-- Risk-level classification (lines 116-125). -/
def riskLevelOf (riskScore anomalyScore : ℚ) : String :=
  if riskScore > 0.7 ∨ anomalyScore > 0.8 then "high"
  else if riskScore > 0.4 ∨ anomalyScore > 0.5 then "medium"
  else "low"

/-- Review requirement (lines 114-125). -/
def requiresReviewOf (riskScore anomalyScore amount : ℚ) : Bool :=
  if riskScore > 0.7 ∨ anomalyScore > 0.8 then true
  else if riskScore > 0.4 ∨ anomalyScore > 0.5 then true
  else decide (amount > 50000)

/-- Math.round(x * 100) / 100 (lines 131-134); Math.round y = ⌊y + 1/2⌋. -/
def round2 (x : ℚ) : ℚ := (⌊x * 100 + 1 / 2⌋ : ℚ) / 100

/-- advancedFraudDetection (lines 24-137). -/
def advancedFraudDetection (env : Env) (tx : Transaction) : FraudAnalysis :=
  let riskScore := riskScoreClamped env tx
  let anomalyScore := anomalyScoreClamped env tx
  let fraudProbability := riskScore * 0.6 + anomalyScore * 0.4
  { risk_score := round2 riskScore
    anomaly_score := round2 anomalyScore
    risk_level := riskLevelOf riskScore anomalyScore
    fraud_probability := round2 fraudProbability
    requires_review := requiresReviewOf riskScore anomalyScore tx.amount }

/-- processBatchTransactions (lines 140-145).  The spread-merge of the
transaction object with its analysis object (their key sets are disjoint)
is the pair. -/
def processBatchTransactions (env : Env) (transactions : List Transaction) :
    List (Transaction × FraudAnalysis) :=
  transactions.map fun tx => (tx, advancedFraudDetection env tx)

/-- The filter of calculateVelocityRisk (lines 152-155): keep tx exactly
when now − txTime < timeWindowHours·60·60·1000 ms, where txTime defaults
to now when created_at is absent. -/
def recentTransactions (now : ℤ) (transactions : List Transaction)
    (timeWindowHours : ℚ) : List Transaction :=
  transactions.filter fun tx =>
    decide (((now : ℚ) - ((tx.created_at.getD now : ℤ) : ℚ)) < timeWindowHours * 60 * 60 * 1000)

/-- calculateVelocityRisk (lines 148-166); the source defaults
timeWindowHours to 24. -/
def calculateVelocityRisk (now : ℤ) (transactions : List Transaction)
    (timeWindowHours : ℚ) : ℚ :=
  let recent := recentTransactions now transactions timeWindowHours
  let totalAmount := (recent.map Transaction.amount).sum
  let transactionCount := recent.length
  if transactionCount > 10 then 0.8
  else if totalAmount > 5000000 then 0.7
  else if transactionCount > 5 ∧ totalAmount > 1000000 then 0.6
  else min 0.5 ((transactionCount : ℚ) * 0.1 + totalAmount / 10000000)

/-- checkGeographicAnomaly (lines 168-192).  The distance-on-sphere
primitive calculateDistance (lines 194-203, the haversine with
R = 6371 km, computed with transcendental floating-point functions) is
abstracted as the parameter dist; the haversine is everywhere nonnegative
and is 0 on coinciding points.  The guards on the last transaction's
coordinates (line 172) are JavaScript truthiness tests, false at 0.  A
missing created_at is replaced by epoch 0 (line 180).  When
maxPossibleDistance = 0 and distance > 0, JavaScript evaluates
distance / 0 to +∞ and Math.min(0.9, ∞ − 1) = 0.9; that case is written
out explicitly because rational division by zero yields 0 instead. -/
def checkGeographicAnomaly (dist : ℚ → ℚ → ℚ → ℚ → ℚ) (now : ℤ)
    (currentLat currentLng : ℚ) (previousTransactions : List Transaction) : ℚ :=
  match previousTransactions.getLast? with
  | none => 0
  | some lastTransaction =>
    match lastTransaction.sender_latitude, lastTransaction.sender_longitude with
    | some lat, some lng =>
      if lat ≠ 0 ∧ lng ≠ 0 then
        let distance := dist currentLat currentLng lat lng
        let timeDiffHours : ℚ :=
          ((now : ℚ) - ((lastTransaction.created_at.getD 0 : ℤ) : ℚ)) / (1000 * 60 * 60)
        let maxPossibleDistance := 100 * timeDiffHours
        if distance > maxPossibleDistance then
          if maxPossibleDistance = 0 then 0.9
          else min 0.9 (distance / maxPossibleDistance - 1)
        else 0
      else 0
    | _, _ => 0

/-- A well-formed everyday transaction used to instantiate theorems with
hypotheses at concrete inputs. -/
def baseTx : Transaction :=
  { id := none
    amount := 1000
    channel := "NEFT"
    beneficiary_name := "Rahul Kumar"
    beneficiary_account := "12345678901"
    beneficiary_phone := "9876543210"
    beneficiary_ifsc := "SBIN0001234"
    sender_account := "98765432109"
    sender_latitude := some 19.076
    sender_longitude := some 72.8777
    created_at := some 0 }

/-- A concrete ambient environment: 10:00 on a Wednesday, both random
draws at 0.5 (zero jitter). -/
def env0 : Env := ⟨10, 3, 0.5, 0.5⟩

theorem clamp01_nonneg (x : ℚ) : 0 ≤ clamp01 x := le_max_left 0 _

theorem clamp01_le_one (x : ℚ) : clamp01 x ≤ 1 := max_le (by norm_num) (min_le_left 1 x)

theorem round2_nonneg (x : ℚ) (h : 0 ≤ x) : 0 ≤ round2 x := by
  unfold round2
  have h1 : (0 : ℤ) ≤ ⌊x * 100 + 1 / 2⌋ := Int.le_floor.mpr (by push_cast; linarith)
  have h2 : (0 : ℚ) ≤ (⌊x * 100 + 1 / 2⌋ : ℚ) := by exact_mod_cast h1
  exact div_nonneg h2 (by norm_num)

theorem round2_le_one (x : ℚ) (h : x ≤ 1) : round2 x ≤ 1 := by
  unfold round2
  have h1 : ⌊x * 100 + 1 / 2⌋ ≤ (100 : ℤ) := Int.floor_le_iff.mpr (by push_cast; linarith)
  have h2 : (⌊x * 100 + 1 / 2⌋ : ℚ) ≤ 100 := by exact_mod_cast h1
  rw [div_le_one (by norm_num)]
  exact h2

theorem risk_score_eq (env : Env) (tx : Transaction) :
    (advancedFraudDetection env tx).risk_score = round2 (riskScoreClamped env tx) := rfl

theorem anomaly_score_eq (env : Env) (tx : Transaction) :
    (advancedFraudDetection env tx).anomaly_score = round2 (anomalyScoreClamped env tx) := rfl

theorem fraud_probability_eq (env : Env) (tx : Transaction) :
    (advancedFraudDetection env tx).fraud_probability =
      round2 (riskScoreClamped env tx * 0.6 + anomalyScoreClamped env tx * 0.4) := rfl

theorem risk_level_eq (env : Env) (tx : Transaction) :
    (advancedFraudDetection env tx).risk_level =
      riskLevelOf (riskScoreClamped env tx) (anomalyScoreClamped env tx) := rfl

theorem requires_review_eq (env : Env) (tx : Transaction) :
    (advancedFraudDetection env tx).requires_review =
      requiresReviewOf (riskScoreClamped env tx) (anomalyScoreClamped env tx) tx.amount := rfl

/-- C1: for every transaction and every ambient environment, the
risk_score, anomaly_score and fraud_probability returned by
advancedFraudDetection lie in [0, 1]: both scores are clamped to [0, 1]
before risk_level and fraud_probability are derived, and two-decimal
rounding keeps all three returned values inside [0, 1]. -/
theorem advancedFraudDetection_scores_unit_interval (env : Env) (tx : Transaction) :
    0 ≤ (advancedFraudDetection env tx).risk_score ∧
    (advancedFraudDetection env tx).risk_score ≤ 1 ∧
    0 ≤ (advancedFraudDetection env tx).anomaly_score ∧
    (advancedFraudDetection env tx).anomaly_score ≤ 1 ∧
    0 ≤ (advancedFraudDetection env tx).fraud_probability ∧
    (advancedFraudDetection env tx).fraud_probability ≤ 1 := by
  have hr0 : 0 ≤ riskScoreClamped env tx := clamp01_nonneg _
  have hr1 : riskScoreClamped env tx ≤ 1 := clamp01_le_one _
  have ha0 : 0 ≤ anomalyScoreClamped env tx := clamp01_nonneg _
  have ha1 : anomalyScoreClamped env tx ≤ 1 := clamp01_le_one _
  rw [risk_score_eq, anomaly_score_eq, fraud_probability_eq]
  refine ⟨round2_nonneg _ hr0, round2_le_one _ hr1, round2_nonneg _ ha0, round2_le_one _ ha1,
    round2_nonneg _ (by nlinarith), round2_le_one _ (by nlinarith)⟩

/-- C2: risk_level is "high" iff the clamped unrounded riskScore exceeds
0.7 or the clamped unrounded anomalyScore exceeds 0.8; otherwise "medium"
iff riskScore exceeds 0.4 or anomalyScore exceeds 0.5; otherwise "low".
requires_review is true for "high" and "medium", and for "low" exactly
when amount > 50000.  All comparisons use the clamped, unrounded scores. -/
theorem risk_level_classification (env : Env) (tx : Transaction) :
    ((advancedFraudDetection env tx).risk_level = "high" ↔
      (riskScoreClamped env tx > 0.7 ∨ anomalyScoreClamped env tx > 0.8)) ∧
    ((advancedFraudDetection env tx).risk_level = "medium" ↔
      (¬(riskScoreClamped env tx > 0.7 ∨ anomalyScoreClamped env tx > 0.8) ∧
        (riskScoreClamped env tx > 0.4 ∨ anomalyScoreClamped env tx > 0.5))) ∧
    ((advancedFraudDetection env tx).risk_level = "low" ↔
      (¬(riskScoreClamped env tx > 0.7 ∨ anomalyScoreClamped env tx > 0.8) ∧
        ¬(riskScoreClamped env tx > 0.4 ∨ anomalyScoreClamped env tx > 0.5))) ∧
    ((advancedFraudDetection env tx).risk_level = "high" ∨
      (advancedFraudDetection env tx).risk_level = "medium" →
      (advancedFraudDetection env tx).requires_review = true) ∧
    ((advancedFraudDetection env tx).risk_level = "low" →
      ((advancedFraudDetection env tx).requires_review = true ↔ tx.amount > 50000)) := by
  rw [risk_level_eq, requires_review_eq]
  unfold riskLevelOf requiresReviewOf
  split_ifs with h1 h2 <;> simp_all

theorem amountRisk_nonneg (a : ℚ) : 0 ≤ amountRisk a := by
  unfold amountRisk; split_ifs <;> norm_num

theorem channelRisk_ge (c : String) : 0.1 ≤ channelRisk c := by
  unfold channelRisk; split_ifs <;> norm_num

theorem timeRisk_nonneg (h : ℕ) : 0 ≤ timeRisk h := by
  unfold timeRisk; split_ifs <;> norm_num

theorem weekendRisk_nonneg (d : ℕ) : 0 ≤ weekendRisk d := by
  unfold weekendRisk; split_ifs <;> norm_num

theorem ifscRisk_nonneg (s : String) : 0 ≤ ifscRisk s := by
  unfold ifscRisk; split_ifs <;> norm_num

theorem locationContrib_fst_nonneg (tx : Transaction) : 0 ≤ (locationContrib tx).1 := by
  unfold locationContrib
  rcases tx.sender_latitude with _ | lat <;> rcases tx.sender_longitude with _ | lng
  · norm_num
  · norm_num
  · norm_num
  · rw [apply_ite Prod.fst]
    split_ifs <;> norm_num

theorem crossChannelRisk_nonneg (c : String) (a : ℚ) : 0 ≤ crossChannelRisk c a := by
  unfold crossChannelRisk; split_ifs <;> norm_num

theorem jitter_ge (r : ℚ) (h : 0 ≤ r) : -0.05 ≤ jitter r := by
  unfold jitter; nlinarith

/-- C3: whenever sender_account equals beneficiary_account, the 0.8
self-transfer contribution is added to riskScore, and — for any hour, any
day, and any Math.random() draw in [0, 1] — the resulting risk_level is
"high": the pre-clamp risk sum is at least
0.8 + 0.1 (minimum channel weight) − 0.05 (worst jitter) = 0.85 > 0.7. -/
theorem selfTransfer_forces_high (env : Env) (tx : Transaction)
    (hacc : tx.sender_account = tx.beneficiary_account)
    (hr0 : 0 ≤ env.randomRisk) (hr1 : env.randomRisk ≤ 1) :
    selfTransferRisk tx = 0.8 ∧ (advancedFraudDetection env tx).risk_level = "high" := by
  have hself : selfTransferRisk tx = 0.8 := by unfold selfTransferRisk; rw [if_pos hacc]
  have hraw : (0.85 : ℚ) ≤ rawRiskScore env tx := by
    unfold rawRiskScore
    have h1 := amountRisk_nonneg tx.amount
    have h2 := channelRisk_ge tx.channel
    have h3 := timeRisk_nonneg env.hour
    have h4 := weekendRisk_nonneg env.dayOfWeek
    have h5 := ifscRisk_nonneg tx.beneficiary_ifsc
    have h6 := locationContrib_fst_nonneg tx
    have h7 := crossChannelRisk_nonneg tx.channel tx.amount
    have h8 := jitter_ge env.randomRisk hr0
    rw [hself]
    norm_num at h2 h8 ⊢
    linarith
  have hclamp : riskScoreClamped env tx > 0.7 := by
    unfold riskScoreClamped clamp01
    have hmin : (0.85 : ℚ) ≤ min 1 (rawRiskScore env tx) := le_min (by norm_num) hraw
    have hmax : min 1 (rawRiskScore env tx) ≤ max 0 (min 1 (rawRiskScore env tx)) :=
      le_max_right _ _
    norm_num at hmin ⊢
    linarith
  refine ⟨hself, ?_⟩
  rw [risk_level_eq]
  unfold riskLevelOf
  rw [if_pos (Or.inl hclamp)]

/-- Concrete self-transfer transaction: sender and beneficiary accounts
coincide. -/
def selfTx : Transaction := { baseTx with beneficiary_account := "98765432109" }

/-- C3 witness: the self-transfer theorem applied to a concrete
transaction and environment. -/
theorem selfTransfer_forces_high_witness :
    selfTransferRisk selfTx = 0.8 ∧ (advancedFraudDetection env0 selfTx).risk_level = "high" :=
  selfTransfer_forces_high env0 selfTx rfl (by norm_num [env0]) (by norm_num [env0])

/-- C4 counterexample: at the wall-clock hour 22 the off-hours test
hour < 6 ∨ hour > 22 is false (22 > 22 fails), so only the 0.1 late-night
weight is added — the total time-of-day contribution at hour 22 is 0.1,
not the 0.3 the claim asserts. -/
theorem timeRisk_at_22_cex : timeRisk 22 = 0.1 ∧ ¬ timeRisk 22 = 0.3 := by
  norm_num [timeRisk]

/-- C4 amended: for hours 23, 0, 1, 2 the off-hours weight 0.2 and the
late-night weight 0.1 are both added (total 0.3), but hour 22 satisfies
only the late-night condition, so its total time-of-day contribution is
0.1. -/
theorem timeRisk_bands :
    timeRisk 23 = 0.3 ∧ timeRisk 0 = 0.3 ∧ timeRisk 1 = 0.3 ∧ timeRisk 2 = 0.3 ∧
    timeRisk 22 = 0.1 := by
  norm_num [timeRisk]

/-- Transaction whose sender latitude is present and equal to 0 (a valid
coordinate on the equator), longitude 70 (inside the box). -/
def zeroLatTx : Transaction :=
  { baseTx with sender_latitude := some 0, sender_longitude := some 70 }

/-- C5 counterexample: with latitude 0 present (and longitude 70), the
claim predicts the bounding-box branch fires (0 < 6 is outside the box,
so 0.3 risk) and the integer-coordinate check fires (0 and 70 are
integers, so 0.2 anomaly).  But the JavaScript truthiness guard treats
latitude 0 as absent, so the code adds the flat missing-location 0.1 to
risk and nothing to anomaly. -/
theorem locationContrib_zero_coordinate_cex :
    zeroLatTx.sender_latitude = some 0 ∧ zeroLatTx.sender_longitude = some 70 ∧
    locationContrib zeroLatTx = (0.1, 0) ∧ ¬ locationContrib zeroLatTx = (0.3, 0.2) := by
  refine ⟨rfl, rfl, ?_, ?_⟩ <;> norm_num [locationContrib, zeroLatTx, baseTx, Prod.ext_iff]

/-- C5 amended: the location branch applies exactly when both coordinates
are present AND nonzero (JavaScript truthiness): then 0.3 risk is added
exactly when the coordinates leave the box [6, 37] × [68, 97] and 0.2
anomaly exactly when both are exact integers.  When either coordinate is
absent — or present but equal to 0 — the flat 0.1 risk is added instead
and neither check applies. -/
theorem locationContrib_spec (tx : Transaction) :
    (∀ lat lng, tx.sender_latitude = some lat → tx.sender_longitude = some lng →
      ¬ lat = 0 → ¬ lng = 0 →
      locationContrib tx =
        ((if lat < 6 ∨ lat > 37 ∨ lng < 68 ∨ lng > 97 then 0.3 else 0),
         (if lat.den = 1 ∧ lng.den = 1 then 0.2 else 0))) ∧
    ((tx.sender_latitude = none ∨ tx.sender_latitude = some 0 ∨
      tx.sender_longitude = none ∨ tx.sender_longitude = some 0) →
      locationContrib tx = (0.1, 0)) := by
  constructor
  · intro lat lng hlat hlng h0 h1
    unfold locationContrib
    rw [hlat, hlng]
    dsimp only
    rw [if_pos (And.intro h0 h1)]
  · intro h
    unfold locationContrib
    rcases hlat : tx.sender_latitude with _ | lat <;>
      rcases hlng : tx.sender_longitude with _ | lng <;> simp_all <;>
      rcases h with h | h <;> simp_all

/-- Transaction with nonzero integer coordinates inside the bounding box. -/
def intCoordTx : Transaction :=
  { baseTx with sender_latitude := some 20, sender_longitude := some 77 }

/-- C5 witness: the amended location theorem applied at concrete inputs —
nonzero in-box integer coordinates give (0, 0.2), and a present-but-zero
latitude gives the flat (0.1, 0). -/
theorem locationContrib_spec_witness :
    locationContrib intCoordTx = (0, 0.2) ∧ locationContrib zeroLatTx = (0.1, 0) := by
  constructor
  · have h := (locationContrib_spec intCoordTx).1 20 77 rfl rfl (by norm_num) (by norm_num)
    rw [h]
    norm_num
  · exact (locationContrib_spec zeroLatTx).2 (Or.inr (Or.inl rfl))

theorem mem_recentTransactions (now : ℤ) (txs : List Transaction) (w : ℚ)
    (tx : Transaction) :
    tx ∈ recentTransactions now txs w ↔
      tx ∈ txs ∧ ((now : ℚ) - ((tx.created_at.getD now : ℤ) : ℚ)) < w * 60 * 60 * 1000 := by
  unfold recentTransactions
  simp [List.mem_filter]

/-- Transaction of amount 0 whose creation timestamp lies strictly after
the current instant used in the counterexample (now = 0). -/
def futureTx : Transaction := { baseTx with amount := 0, created_at := some 999999999 }

/-- C6 counterexample: the filter condition now − txTime < window has no
lower bound, so a transaction dated after the current instant (timestamp
999999999 ms against now = 0) is counted by calculateVelocityRisk: with
this single future transaction the fallback formula yields
1 · 0.1 + 0 = 0.1, whereas the claim's filter would count nothing and
yield 0. -/
theorem velocity_counts_future_cex :
    futureTx.created_at = some 999999999 ∧
    futureTx ∈ recentTransactions 0 [futureTx] 24 ∧
    calculateVelocityRisk 0 [futureTx] 24 = 0.1 := by
  have hrec : recentTransactions 0 [futureTx] 24 = [futureTx] := by
    unfold recentTransactions
    rw [List.filter_cons]
    norm_num [futureTx, baseTx]
  refine ⟨rfl, ?_, ?_⟩
  · rw [hrec]
    exact List.mem_singleton_self _
  · unfold calculateVelocityRisk
    rw [hrec]
    norm_num [futureTx, baseTx]

/-- C6 amended: the filter of calculateVelocityRisk keeps a transaction
exactly when now − txTime < window (txTime taken as the current instant
when the timestamp is absent).  The window has no lower-bound side, so a
transaction dated after the current instant is also counted; an
absent-timestamp transaction is counted exactly when the window length is
positive. -/
theorem recentTransactions_spec (now : ℤ) (txs : List Transaction) (w : ℚ)
    (tx : Transaction) :
    tx ∈ recentTransactions now txs w ↔
      tx ∈ txs ∧ ((now : ℚ) - ((tx.created_at.getD now : ℤ) : ℚ)) < w * 60 * 60 * 1000 :=
  mem_recentTransactions now txs w tx

theorem recent_subset (now : ℤ) (txs : List Transaction) (w : ℚ) (tx : Transaction)
    (h : tx ∈ recentTransactions now txs w) : tx ∈ txs :=
  ((mem_recentTransactions now txs w tx).mp h).1

/-- C7: for histories of nonnegative amounts calculateVelocityRisk lies in
[0, 0.8]; whenever more than 10 transactions pass the window filter it is
exactly 0.8 regardless of amounts; and on the empty history it is the
fallback value at count 0 and sum 0, namely 0. -/
theorem calculateVelocityRisk_range (now : ℤ) (txs : List Transaction) (w : ℚ) :
    ((∀ tx ∈ txs, 0 ≤ tx.amount) →
      0 ≤ calculateVelocityRisk now txs w ∧ calculateVelocityRisk now txs w ≤ 0.8) ∧
    ((recentTransactions now txs w).length > 10 → calculateVelocityRisk now txs w = 0.8) ∧
    calculateVelocityRisk now [] w = 0 := by
  refine ⟨?_, ?_, ?_⟩
  · intro hpos
    have hsum : 0 ≤ ((recentTransactions now txs w).map Transaction.amount).sum := by
      apply List.sum_nonneg
      intro x hx
      obtain ⟨tx, htx, rfl⟩ := List.mem_map.mp hx
      exact hpos tx (recent_subset now txs w tx htx)
    unfold calculateVelocityRisk
    dsimp only
    split_ifs with h1 h2 h3
    · norm_num
    · norm_num
    · norm_num
    · constructor
      · apply le_min (by norm_num)
        have hc : (0 : ℚ) ≤ ((recentTransactions now txs w).length : ℚ) := by positivity
        have : (0 : ℚ) ≤ ((recentTransactions now txs w).map Transaction.amount).sum / 10000000 := by
          positivity
        nlinarith
      · calc min 0.5 (((recentTransactions now txs w).length : ℚ) * 0.1 +
              ((recentTransactions now txs w).map Transaction.amount).sum / 10000000) ≤ 0.5 :=
              min_le_left _ _
          _ ≤ 0.8 := by norm_num
  · intro hcount
    unfold calculateVelocityRisk
    rw [if_pos hcount]
  · have hrec : recentTransactions now [] w = [] := rfl
    unfold calculateVelocityRisk
    rw [hrec]
    norm_num

/-- Eleven copies of a transaction with an absent timestamp, hence all
counted inside any positive window. -/
def elevenTxs : List Transaction :=
  List.replicate 11 { baseTx with created_at := none }

/-- C7 witness: the velocity-range theorem applied at concrete inputs —
eleven in-window transactions of amount 1000 give exactly 0.8, inside
[0, 0.8], and the empty history gives 0. -/
theorem calculateVelocityRisk_range_witness :
    (0 ≤ calculateVelocityRisk 0 elevenTxs 24 ∧ calculateVelocityRisk 0 elevenTxs 24 ≤ 0.8) ∧
    calculateVelocityRisk 0 elevenTxs 24 = 0.8 ∧
    calculateVelocityRisk 0 [] 24 = 0 := by
  have h := calculateVelocityRisk_range 0 elevenTxs 24
  have hlen : (recentTransactions 0 elevenTxs 24).length > 10 := by
    have : recentTransactions 0 elevenTxs 24 = elevenTxs := by
      unfold recentTransactions elevenTxs
      rw [List.filter_eq_self]
      intro tx htx
      rw [List.eq_of_mem_replicate htx]
      norm_num
    rw [this]
    norm_num [elevenTxs]
  refine ⟨h.1 ?_, h.2.1 hlen, (calculateVelocityRisk_range 0 [] 24).2.2⟩
  intro tx htx
  rw [List.eq_of_mem_replicate htx]
  norm_num [baseTx]

theorem checkGeographicAnomaly_zero_coords (dist : ℚ → ℚ → ℚ → ℚ → ℚ) (now : ℤ)
    (clat clng : ℚ) (prev : List Transaction) (last : Transaction)
    (hl : prev.getLast? = some last)
    (h : last.sender_latitude = none ∨ last.sender_latitude = some 0 ∨
         last.sender_longitude = none ∨ last.sender_longitude = some 0) :
    checkGeographicAnomaly dist now clat clng prev = 0 := by
  unfold checkGeographicAnomaly
  rw [hl]
  rcases hla : last.sender_latitude with _ | lat <;>
    rcases hlo : last.sender_longitude with _ | lng <;> simp_all <;>
    rcases h with h | h <;> simp_all

theorem checkGeographicAnomaly_eq (dist : ℚ → ℚ → ℚ → ℚ → ℚ) (now : ℤ)
    (clat clng : ℚ) (prev : List Transaction) (last : Transaction) (lat lng : ℚ)
    (hl : prev.getLast? = some last) (hla : last.sender_latitude = some lat)
    (hlo : last.sender_longitude = some lng) (h0 : ¬ lat = 0) (h1 : ¬ lng = 0) :
    checkGeographicAnomaly dist now clat clng prev =
      (if dist clat clng lat lng >
            100 * (((now : ℚ) - ((last.created_at.getD 0 : ℤ) : ℚ)) / (1000 * 60 * 60)) then
        (if 100 * (((now : ℚ) - ((last.created_at.getD 0 : ℤ) : ℚ)) / (1000 * 60 * 60)) = 0
          then 0.9
          else min 0.9 (dist clat clng lat lng /
            (100 * (((now : ℚ) - ((last.created_at.getD 0 : ℤ) : ℚ)) / (1000 * 60 * 60))) - 1))
      else 0) := by
  unfold checkGeographicAnomaly
  rw [hl]
  dsimp only
  rw [hla, hlo]
  dsimp only
  rw [if_pos (And.intro h0 h1)]

/-- C8 amended: when the most recent history entry is not dated after the
current instant and the distance primitive is nonnegative (both true of
the haversine on past histories), checkGeographicAnomaly lies in
[0, 0.9]; it is 0 on an empty history and when the most recent entry
lacks a coordinate (or has a zero coordinate, by JavaScript truthiness);
and with a positive plausible distance pd = elapsed hours × 100 it equals
min(0.9, distance/pd − 1) when distance > pd and 0 otherwise.  (When
pd = 0 and distance > 0 the code returns 0.9, the JavaScript value of
min(0.9, ∞ − 1).)  Without the not-in-the-future hypothesis the result
can be negative, as the counterexample shows. -/
theorem checkGeographicAnomaly_spec (dist : ℚ → ℚ → ℚ → ℚ → ℚ) (now : ℤ)
    (clat clng : ℚ) (prev : List Transaction)
    (hdist : ∀ a b c d, 0 ≤ dist a b c d)
    (hpast : ∀ last, prev.getLast? = some last → (last.created_at.getD 0 : ℤ) ≤ now) :
    (0 ≤ checkGeographicAnomaly dist now clat clng prev ∧
      checkGeographicAnomaly dist now clat clng prev ≤ 0.9) ∧
    (prev = [] → checkGeographicAnomaly dist now clat clng prev = 0) ∧
    (∀ last, prev.getLast? = some last →
      (last.sender_latitude = none ∨ last.sender_latitude = some 0 ∨
       last.sender_longitude = none ∨ last.sender_longitude = some 0) →
      checkGeographicAnomaly dist now clat clng prev = 0) ∧
    (∀ last lat lng, prev.getLast? = some last →
      last.sender_latitude = some lat → last.sender_longitude = some lng →
      ¬ lat = 0 → ¬ lng = 0 →
      0 < 100 * (((now : ℚ) - ((last.created_at.getD 0 : ℤ) : ℚ)) / (1000 * 60 * 60)) →
      checkGeographicAnomaly dist now clat clng prev =
        (if dist clat clng lat lng >
              100 * (((now : ℚ) - ((last.created_at.getD 0 : ℤ) : ℚ)) / (1000 * 60 * 60)) then
          min 0.9 (dist clat clng lat lng /
            (100 * (((now : ℚ) - ((last.created_at.getD 0 : ℤ) : ℚ)) / (1000 * 60 * 60))) - 1)
        else 0)) := by
  refine ⟨?_, ?_, ?_, ?_⟩
  · rcases hl : prev.getLast? with _ | last
    · unfold checkGeographicAnomaly
      rw [hl]
      norm_num
    · rcases hla : last.sender_latitude with _ | lat
      · rw [checkGeographicAnomaly_zero_coords dist now clat clng prev last hl (Or.inl hla)]
        norm_num
      · rcases hlo : last.sender_longitude with _ | lng
        · rw [checkGeographicAnomaly_zero_coords dist now clat clng prev last hl
            (Or.inr (Or.inr (Or.inl hlo)))]
          norm_num
        · by_cases h0 : lat = 0
          · rw [checkGeographicAnomaly_zero_coords dist now clat clng prev last hl
              (Or.inr (Or.inl (by rw [hla, h0])))]
            norm_num
          · by_cases h1 : lng = 0
            · rw [checkGeographicAnomaly_zero_coords dist now clat clng prev last hl
                (Or.inr (Or.inr (Or.inr (by rw [hlo, h1]))))]
              norm_num
            · rw [checkGeographicAnomaly_eq dist now clat clng prev last lat lng hl hla hlo h0 h1]
              have hpd : (0 : ℚ) ≤
                  100 * (((now : ℚ) - ((last.created_at.getD 0 : ℤ) : ℚ)) / (1000 * 60 * 60)) := by
                have ht : ((last.created_at.getD 0 : ℤ) : ℚ) ≤ (now : ℚ) := by
                  exact_mod_cast hpast last hl
                have : (0 : ℚ) ≤ (now : ℚ) - ((last.created_at.getD 0 : ℤ) : ℚ) := by linarith
                positivity
              split_ifs with hgt hz
              · norm_num
              · have hpdpos : (0 : ℚ) <
                    100 * (((now : ℚ) - ((last.created_at.getD 0 : ℤ) : ℚ)) / (1000 * 60 * 60)) :=
                  lt_of_le_of_ne hpd (Ne.symm hz)
                have hdivgt : 1 < dist clat clng lat lng /
                    (100 * (((now : ℚ) - ((last.created_at.getD 0 : ℤ) : ℚ)) / (1000 * 60 * 60))) :=
                  (one_lt_div hpdpos).mpr hgt
                constructor
                · exact le_min (by norm_num) (by linarith)
                · exact min_le_left _ _
              · norm_num
  · intro h
    subst h
    rfl
  · intro last hl h
    exact checkGeographicAnomaly_zero_coords dist now clat clng prev last hl h
  · intro last lat lng hl hla hlo h0 h1 hpdpos
    rw [checkGeographicAnomaly_eq dist now clat clng prev last lat lng hl hla hlo h0 h1]
    rw [if_neg (ne_of_gt hpdpos)]

/-- Distance function standing in for calculateDistance in the
counterexample: the haversine of a point with itself is exactly 0, and
the counterexample only evaluates the primitive at coinciding points
(current location (20, 77), last location (20, 77)). -/
def zeroDist : ℚ → ℚ → ℚ → ℚ → ℚ := fun _ _ _ _ => 0

/-- History entry dated one hour after the counterexample's current
instant (now = 0). -/
def futureGeoTx : Transaction :=
  { baseTx with
    sender_latitude := some 20
    sender_longitude := some 77
    created_at := some 3600000 }

/-- C8 counterexample: with the most recent entry dated one hour in the
future, the elapsed time is −1 h and the plausible distance −100 km, so
distance 0 (same point, haversine 0) exceeds it and the code returns
min(0.9, 0/(−100) − 1) = −1, outside [0, 0.9]. -/
theorem checkGeographicAnomaly_negative_cex :
    checkGeographicAnomaly zeroDist 0 20 77 [futureGeoTx] = -1 ∧
    ¬ (0 ≤ checkGeographicAnomaly zeroDist 0 20 77 [futureGeoTx]) := by
  have h : checkGeographicAnomaly zeroDist 0 20 77 [futureGeoTx] = -1 := by
    rw [checkGeographicAnomaly_eq zeroDist 0 20 77 [futureGeoTx] futureGeoTx 20 77
      rfl rfl rfl (by norm_num) (by norm_num)]
    norm_num [zeroDist, futureGeoTx, baseTx, min_def]
  rw [h]
  norm_num

/-- Distance function standing in for calculateDistance in the witness:
a constant 1000 km, the specification's own test vector (1000 km apart,
1 hour elapsed, plausible distance 100 km). -/
def flatDist : ℚ → ℚ → ℚ → ℚ → ℚ := fun _ _ _ _ => 1000

/-- History entry at epoch 0, one hour before the witness's current
instant. -/
def pastGeoTx : Transaction :=
  { baseTx with
    sender_latitude := some 20
    sender_longitude := some 77
    created_at := some 0 }

/-- C8 witness: the amended geographic theorem applied at concrete inputs
with a past-dated history and a nonnegative distance primitive. -/
theorem checkGeographicAnomaly_spec_witness :
    0 ≤ checkGeographicAnomaly flatDist 3600000 20 78 [pastGeoTx] ∧
    checkGeographicAnomaly flatDist 3600000 20 78 [pastGeoTx] ≤ 0.9 :=
  (checkGeographicAnomaly_spec flatDist 3600000 20 78 [pastGeoTx]
    (fun _ _ _ _ => by norm_num [flatDist])
    (fun last hl => by
      have : last = pastGeoTx := by
        simpa using hl.symm
      rw [this]
      norm_num [pastGeoTx, baseTx])).1

/-- C9: processBatchTransactions returns exactly as many results as there
are inputs, in the same order — the i-th result is the i-th input paired
with that input's analysis — and on the empty list it returns the empty
list. -/
theorem processBatchTransactions_spec (env : Env) (txs : List Transaction) (i : ℕ) :
    (processBatchTransactions env txs).length = txs.length ∧
    (processBatchTransactions env txs)[i]? =
      (txs[i]?).map (fun tx => (tx, advancedFraudDetection env tx)) ∧
    processBatchTransactions env [] = [] := by
  unfold processBatchTransactions
  exact ⟨List.length_map _ _, List.getElem?_map .., List.map_nil⟩

/-- C10: advancedFraudDetection is a pure function of the transaction and
the injected ambient values (hour, day of week and the two random draws):
two calls agreeing on both yield identical analyses — the clock and the
random source, both made explicit in Env, are the only inputs beyond the
transaction itself. -/
theorem advancedFraudDetection_deterministic (env env2 : Env) (tx tx2 : Transaction)
    (henv : env = env2) (htx : tx = tx2) :
    advancedFraudDetection env tx = advancedFraudDetection env2 tx2 := by
  rw [henv, htx]

/-- C10 witness: determinism applied at a concrete environment and
transaction. -/
theorem advancedFraudDetection_deterministic_witness :
    advancedFraudDetection env0 baseTx = advancedFraudDetection env0 baseTx :=
  advancedFraudDetection_deterministic env0 env0 baseTx baseTx rfl rfl

theorem rawRiskScore_baseTx : rawRiskScore env0 baseTx = 0.15 := by
  have h4 : "SBIN0001234".take 4 = "SBIN" := by decide
  have hs1 : ("NEFT" = "RTGS") = False := by simp
  have hs2 : ("98765432109" = "12345678901") = False := by simp
  have hs3 : ("SBIN" = "TEST") = False := by simp
  have hs4 : ("SBIN" = "FAKE") = False := by simp
  have hs5 : ("SBIN" = "DEMO") = False := by simp
  have hs6 : ("NEFT" = "UPI") = False := by simp
  unfold rawRiskScore amountRisk channelRisk timeRisk weekendRisk selfTransferRisk ifscRisk
    locationContrib crossChannelRisk jitter
  norm_num [baseTx, env0, h4, hs1, hs2, hs3, hs4, hs5, hs6]

theorem rawAnomalyScore_baseTx : rawAnomalyScore env0 baseTx = 0 := by
  have h1 : matchesUpperSpace "Rahul Kumar" = false := by decide
  have h2 : isRepeatedChar "12345678901" = false := by decide
  have h3 : matchesPhone "9876543210" = true := by decide
  have hs1 : ("NEFT" = "RTGS") = False := by simp
  unfold rawAnomalyScore nameAnomaly accountAnomaly phoneAnomaly roundAmountAnomaly
    locationContrib crossChannelAnomaly jitter
  norm_num [baseTx, env0, h1, h2, h3, hs1, Rat.den]
  decide

/-- C2 witness: the classification theorem applied to a concrete
transaction whose clamped scores are 0.15 and 0 — its risk_level is "low"
and requires_review reduces to the amount test. -/
theorem risk_level_classification_witness :
    (advancedFraudDetection env0 baseTx).risk_level = "low" ∧
    ((advancedFraudDetection env0 baseTx).requires_review = true ↔ baseTx.amount > 50000) := by
  have hr : riskScoreClamped env0 baseTx = 0.15 := by
    unfold riskScoreClamped clamp01
    rw [rawRiskScore_baseTx]
    norm_num [min_def, max_def]
  have ha : anomalyScoreClamped env0 baseTx = 0 := by
    unfold anomalyScoreClamped clamp01
    rw [rawAnomalyScore_baseTx]
    norm_num [min_def, max_def]
  have hlow : (advancedFraudDetection env0 baseTx).risk_level = "low" := by
    rw [risk_level_eq, hr, ha]
    unfold riskLevelOf
    norm_num
  exact ⟨hlow, (risk_level_classification env0 baseTx).2.2.2.2 hlow⟩
